import Mathlib

/-!
# Verification of the Veeam MCP chat client (frontend core)

A shallow embedding, in Lean 4, of the pure logic of the Veeam MCP chat
client's frontend: the artifact-trigger heuristic and error classification
of `ChatInterface.handleSend`, the API client (`chatAPI.sendMessage`,
`chatAPI.streamMessage`, `chatAPI.checkHealth`), the app-level chat state
transitions (`handleNewMessage`, `handleDeleteChat`), the MCP server
configuration dialog (`handleSave`), and the provider-status record
consumed by the Settings page.

JavaScript strings are modelled at the character level: `s.trim()`,
`s.split(c)`, `s.toLowerCase()`, `s.substring(0, n)`, `s.length` and
`s.includes(p)` become `jsTrim`, `jsSplit`, `jsToLower`, `jsTake`,
`jsLength` and `containsSub` on the underlying character list.
JavaScript's `||` fallback on strings (empty string is falsy) is `jsOr`.
-/

namespace VeeamMCP

/-! ## String helpers (character-level model of JavaScript string methods) -/

/-- Drop trailing whitespace characters from a character list. -/
def dropTrailWhite (l : List Char) : List Char :=
  (l.reverse.dropWhile Char.isWhitespace).reverse

/-- Model of JavaScript `s.trim()`: strip leading and trailing whitespace. -/
def jsTrim (s : String) : String :=
  ⟨dropTrailWhite (s.data.dropWhile Char.isWhitespace)⟩

/-- Helper for `jsSplit`: accumulate the current token (reversed) while
scanning the list. -/
def splitCharAux (c : Char) (l : List Char) (cur : List Char) : List (List Char) :=
  match l with
  | [] => [cur.reverse]
  | x :: xs => if x = c then cur.reverse :: splitCharAux c xs [] else splitCharAux c xs (x :: cur)

/-- Model of JavaScript `s.split(c)` for a one-character separator:
`"a  b".split(' ') = ["a", "", "b"]`. -/
def jsSplit (s : String) (c : Char) : List String :=
  (splitCharAux c s.data []).map (fun l => ⟨l⟩)

/-- Model of JavaScript `s.toLowerCase()` (ASCII range suffices for the
keywords the code compares against). -/
def jsToLower (s : String) : String := ⟨s.data.map Char.toLower⟩

/-- Model of JavaScript `s.substring(0, n)`. -/
def jsTake (s : String) (n : Nat) : String := ⟨s.data.take n⟩

/-- Model of JavaScript `s.length`. -/
def jsLength (s : String) : Nat := s.data.length

/-- Helper for `containsSub`: does `pat` occur as a contiguous run of `l`? -/
def containsSubAux (l pat : List Char) : Bool :=
  match l with
  | [] => pat.isPrefixOf []
  | _ :: xs => pat.isPrefixOf l || containsSubAux xs pat

/-- Model of JavaScript `s.includes(pat)`: substring containment. -/
def containsSub (s pat : String) : Bool := containsSubAux s.data pat.data

/-- Model of JavaScript `a || b` on strings where `a` may be absent:
`none` and the empty string are falsy and fall through to `b`. -/
def jsOr (a : Option String) (b : String) : String :=
  match a with
  | some s => if s = "" then b else s
  | none => b

/-! ## Data model (frontend/src/types/index.ts) -/

/-- Message roles, from the `Message` interface in `types/index.ts`. -/
inductive Role
  | user
  | assistant
  | system
deriving DecidableEq, Repr

/-- A chat message (`Message` in `types/index.ts`); the timestamp is kept
abstract as a natural number. -/
structure Message where
  id : String
  role : Role
  content : String
  timestamp : Nat
deriving DecidableEq, Repr

/-- Artifact kinds, from the `Artifact` interface in `types/index.ts`. -/
inductive ArtifactType
  | report
  | dashboard
  | table
  | script
  | diagram
deriving DecidableEq, Repr

/-- A generated artifact (`Artifact` in `types/index.ts`). -/
structure Artifact where
  id : String
  title : String
  type : ArtifactType
  content : String
  preview : Option String
deriving DecidableEq, Repr

/-! ## C1: artifact-trigger logic of `handleSend`
(`ChatInterface.tsx`, lines 81–93) -/

/-- The artifact-generation step of `handleSend`: on the non-streaming
response content, an artifact is produced exactly when the content
includes `"Dashboard"` or `"Report"`; `now` stands for `Date.now()`. -/
def detectArtifact (now : Nat) (content : String) : Option Artifact :=
  if containsSub content "Dashboard" || containsSub content "Report" then
    some { id := "artifact-" ++ toString now
         , title := if containsSub content "Dashboard"
                    then "Veeam Backup Dashboard"
                    else "Executive Backup Report"
         , type := if containsSub content "Dashboard"
                   then ArtifactType.dashboard
                   else ArtifactType.report
         , content := content
         , preview := some content }
  else none

/-! ## C2: error classification of `handleSend`
(`ChatInterface.tsx`, lines 94–113) -/

/-- The error object caught by `handleSend`:
`error?.response?.data?.detail`, `error?.message`, and `String(error)`. -/
structure FrontendError where
  responseDetail : Option String
  message : Option String
  asString : String
deriving DecidableEq, Repr

/-- The extraction in `handleSend`:
`error?.response?.data?.detail || error?.message || String(error)`. -/
def extractErrorMessage (e : FrontendError) : String :=
  jsOr e.responseDetail (jsOr e.message e.asString)

/-- The credentials-reconfiguration message shown for
authentication-flavored failures. -/
def apiKeyErrorText : String :=
  "API key not configured. Please configure your API key in Settings."

/-- The error text `handleSend` displays for a given extracted error
message: the literal four-keyword lowercase-substring test from the code. -/
def displayedError (errorMessage : String) : String :=
  if containsSub (jsToLower errorMessage) "api key"
      || containsSub (jsToLower errorMessage) "authentication"
      || containsSub (jsToLower errorMessage) "unauthorized"
      || containsSub (jsToLower errorMessage) "key is required"
  then apiKeyErrorText
  else "Error: " ++ errorMessage

/-- Spec-side predicate: the message contains one of the four
authentication keywords, case-insensitively. -/
def authKeywords : List String :=
  ["api key", "authentication", "unauthorized", "key is required"]

/-- A message is authentication-flavored when some keyword occurs in its
lowercased form (the keywords are already lowercase). -/
def isAuthFlavored (msg : String) : Bool :=
  authKeywords.any (fun k => containsSub (jsToLower msg) k)

/-! ## App-level chat state (frontend App component, in `types/index.ts`
after the type declarations) -/

/-- A chat (`Chat` interface in `types/index.ts`); dates are abstract
naturals. -/
structure Chat where
  id : String
  title : String
  createdAt : Nat
  updatedAt : Nat
  messages : List Message
deriving DecidableEq, Repr

/-- One entry of the App's `availableModels` state. -/
structure ModelOption where
  value : String
  label : String
  provider : String
  healthy : Bool
deriving DecidableEq, Repr

/-- The App's navigation tabs. -/
inductive Nav
  | chats
  | tools
  | starred
deriving DecidableEq, Repr

/-- The App component's `useState` fields. -/
structure AppState where
  chats : List Chat
  activeChatId : Option String
  currentChat : Option Chat
  selectedProvider : String
  selectedModel : String
  availableProviders : List String
  artifact : Option Artifact
  darkMode : Bool
  showSettings : Bool
  availableModels : List ModelOption
  activeNav : Nav
deriving DecidableEq, Repr

/-! ## C8: `handleNewMessage` (App component) -/

/-- The update of the current chat by `handleNewMessage`: append the message,
refresh `updatedAt`, and retitle a chat still called "New Chat" from the
first user message. -/
def handleNewMessage (now : Nat) (chat : Chat) (m : Message) : Chat :=
  { chat with
    messages := chat.messages ++ [m]
    updatedAt := now
    title :=
      if chat.title = "New Chat" ∧ m.role = Role.user
      then jsTake m.content 50 ++ (if 50 < jsLength m.content then "..." else "")
      else chat.title }

/-! ## C10: `handleDeleteChat` (App component) -/

/-- The `handleDeleteChat` transition: filter the chat out of the list, and clear the
selection when the deleted chat was the active one. -/
def handleDeleteChat (st : AppState) (chatId : String) : AppState :=
  let st1 := { st with chats := st.chats.filter (fun c => c.id != chatId) }
  if st.activeChatId = some chatId then
    { st1 with activeChatId := none, currentChat := none }
  else st1

/-! ## C9: `handleSave` of the MCP server dialog (`src/unnamed/part_001`) -/

/-- An MCP server configuration (`MCPServerConfig` in `MCPConfigDialog`);
the `env` record is modelled as an ordered association list. -/
structure MCPServerConfig where
  name : String
  command : String
  args : List String
  env : Option (List (String × String))
deriving DecidableEq, Repr

/-- JavaScript object-key assignment `acc[k] = v`: overwrite in place when
the key exists, otherwise append (insertion order preserved). -/
def recordSet (acc : List (String × String)) (k v : String) : List (String × String) :=
  if acc.any (fun p => p.1 == k) then
    acc.map (fun p => if p.1 == k then (p.1, v) else p)
  else acc ++ [(k, v)]

/-- The dialog's `envKeys.reduce(...)`: insert each row whose trimmed key
is non-empty, with trimmed key and value. -/
def buildEnv (envKeys : List (String × String)) : List (String × String) :=
  envKeys.foldl
    (fun acc item =>
      if jsTrim item.1 ≠ "" then recordSet acc (jsTrim item.1) (jsTrim item.2) else acc)
    []

/-- The dialog's `handleSave`: refuse (returning `none`, i.e. `onSave` not
called) when name or command trims to empty; otherwise build the config
from trimmed inputs, space-split args, and the env rows. -/
def handleSave (name command args : String) (envKeys : List (String × String)) :
    Option MCPServerConfig :=
  if jsTrim name = "" ∨ jsTrim command = "" then none
  else some
    { name := jsTrim name
    , command := jsTrim command
    , args := ((jsSplit args ' ').map jsTrim).filter (fun a => decide (0 < jsLength a))
    , env := if 0 < envKeys.length then some (buildEnv envKeys) else none }

/-! ## API client (`frontend/src/services/api.ts`) -/

/-- A message as sent on the wire by `handleSend`
(`{ role, content }` projection of `Message`). -/
structure WireMessage where
  role : Role
  content : String
deriving DecidableEq, Repr

/-- The `ChatRequest` interface of `api.ts`: `provider`, `messages`,
optional `model`, optional `stream`. -/
structure ChatRequest where
  provider : String
  messages : List WireMessage
  model : Option String
  stream : Option Bool
deriving DecidableEq, Repr

/-- The JSON keys a `ChatRequest` serializes to, in declaration order;
optional fields appear exactly when set. -/
def ChatRequest.wireKeys (r : ChatRequest) : List String :=
  ["provider", "messages"]
    ++ (match r.model with | some _ => ["model"] | none => [])
    ++ (match r.stream with | some _ => ["stream"] | none => [])

/-- The `usage` block of a `ChatResponse`. -/
structure ChatUsage where
  prompt_tokens : Nat
  completion_tokens : Nat
  total_tokens : Nat
deriving DecidableEq, Repr

/-- The `ChatResponse` interface of `api.ts`: `content`, `model`,
optional `finish_reason`, `usage` and `tool_calls` (the `any[]` payloads
are kept opaque as strings). -/
structure ChatResponse where
  content : String
  model : String
  finish_reason : Option String
  usage : Option ChatUsage
  tool_calls : Option (List String)
deriving DecidableEq, Repr

/-- The server's error envelope as axios exposes it
(`error.response.data`): optional `detail` and `message` texts. -/
structure ServerErrorData where
  detail : Option String
  message : Option String
deriving DecidableEq, Repr

/-- The outcome of the axios `post` inside `sendMessage`: success, a
server-responded error (`error.response` present), a sent-but-unanswered
request (`error.request` present), or anything else. -/
inductive AxiosOutcome
  | success (resp : ChatResponse)
  | responseError (data : ServerErrorData)
  | requestError
  | otherError (e : FrontendError)
deriving DecidableEq, Repr

/-- What `sendMessage` does: return the response or rethrow. -/
inductive SendResult
  | ok (resp : ChatResponse)
  | thrown (err : FrontendError)
deriving DecidableEq, Repr

/-- The error-envelope text chosen by `sendMessage`'s rethrow:
`error.response.data?.detail || error.response.data?.message || 'An error
occurred'`. -/
def envelopeText (d : ServerErrorData) : String :=
  jsOr d.detail (jsOr d.message "An error occurred")

/-- Model of `chatAPI.sendMessage` over the axios outcome: success returns
`response.data`; a server error rethrows `{response: {data: {detail}},
message}` with the envelope text in both places; no response rethrows the
connection message; anything else is rethrown unchanged. -/
def sendMessage (outcome : AxiosOutcome) : SendResult :=
  match outcome with
  | .success r => .ok r
  | .responseError d =>
      .thrown { responseDetail := some (envelopeText d)
              , message := some (envelopeText d)
              , asString := "[object Object]" }
  | .requestError =>
      .thrown { responseDetail := none
              , message := some "No response from server. Please check your connection."
              , asString := "[object Object]" }
  | .otherError e => .thrown e

/-- Model of `chatAPI.checkHealth` over the outcome of the health GET: the
`healthy` field of the response body on success, `false` on any thrown
failure; total, so no exception ever propagates. -/
structure HealthResponse where
  healthy : Bool
deriving DecidableEq, Repr

/-- The `try`/`catch` of `chatAPI.checkHealth`. -/
def checkHealth (outcome : Except String HealthResponse) : Bool :=
  match outcome with
  | .ok r => r.healthy
  | .error _ => false

/-- Modelled from the spec: the backend adapter's `healthCheck` (the
repository's backend `app/adapters` code is not under `src/`): "never
raises — internal failures collapse to `false` plus an optional captured
error string exposed via a separate accessor". -/
structure AdapterHealth where
  healthy : Bool
  lastError : Option String
deriving DecidableEq, Repr

/-- Modelled from the spec: the adapter-level health check over the
outcome of its minimal probe call; failures collapse to `false` and the
error string is captured. -/
def adapterHealthCheck (probe : Except String Bool) : AdapterHealth :=
  match probe with
  | .ok h => { healthy := h, lastError := none }
  | .error e => { healthy := false, lastError := some e }

/-- Modelled from the spec: the separate accessor exposing the captured
error string of the last health probe. -/
def AdapterHealth.getLastError (h : AdapterHealth) : Option String := h.lastError

/-! ## C5: `chatAPI.streamMessage` event handling -/

/-- A parsed SSE payload: optional `content` delta and the `finished`
flag. -/
structure StreamPayload where
  content : Option String
  finished : Bool
deriving DecidableEq, Repr

/-- One event reaching `streamMessage`'s handlers: an `onmessage` whose
data either parses to a payload or fails `JSON.parse`, or an `onerror`
connection failure. -/
inductive StreamEvent
  | message (data : Except Unit StreamPayload)
  | connError
deriving Repr

/-- Observable state of one `streamMessage` call: whether
`eventSource.close()` has run, the chunks delivered to `onChunk`, and the
counts of `onComplete`/`onError` invocations. -/
structure StreamState where
  closed : Bool
  chunks : List String
  completions : Nat
  errors : Nat
deriving DecidableEq, Repr

/-- Process one event as the handlers in `streamMessage` do; a closed
`EventSource` delivers nothing, so a closed state absorbs every event.
`if (data.content)` is JavaScript-truthy: an absent or empty delta is not
delivered. -/
def streamStep (st : StreamState) (e : StreamEvent) : StreamState :=
  if st.closed then st
  else
    match e with
    | .message (Except.ok p) =>
        let st1 :=
          match p.content with
          | some c => if c = "" then st else { st with chunks := st.chunks ++ [c] }
          | none => st
        if p.finished then { st1 with completions := st1.completions + 1, closed := true }
        else st1
    | .message (Except.error _) => { st with errors := st.errors + 1, closed := true }
    | .connError => { st with errors := st.errors + 1, closed := true }

/-- The initial state of a `streamMessage` call. -/
def initStream : StreamState :=
  { closed := false, chunks := [], completions := 0, errors := 0 }

/-- Run a whole event sequence through the handlers. -/
def runStream (events : List StreamEvent) : StreamState :=
  events.foldl streamStep initStream

/-- An event that terminates the stream: a parsed payload with the
`finished` flag, a payload that fails to parse, or a connection error. -/
def StreamEvent.isTerminal : StreamEvent → Bool
  | .message (Except.ok p) => p.finished
  | .message (Except.error _) => true
  | .connError => true

/-! ## C3: empty-message guard -/

/-- The request-construction part of `handleSend`: no request when the
input is empty after trimming or a stream is in flight; otherwise the
request carries all prior messages plus the new trimmed user message. -/
def handleSendRequest (input : String) (isStreaming : Bool) (messages : List Message)
    (provider model : String) (now : Nat) : Option ChatRequest :=
  if jsTrim input = "" ∨ isStreaming = true then none
  else
    some { provider := provider
         , messages :=
             (messages ++
               [({ id := "msg-" ++ toString now, role := Role.user
                 , content := jsTrim input, timestamp := now } : Message)]).map
               (fun (m : Message) => ({ role := m.role, content := m.content } : WireMessage))
         , model := some model
         , stream := some false }

/-- Modelled from the spec: the backend adapter error taxonomy (the
adapter code is not under `src/`). -/
inductive AdapterError
  | invalidRequest
  | auth
  | rateLimit
  | providerUnavailable
deriving DecidableEq, Repr

/-- Modelled from the spec: the adapter's `chat` — "If `messages` is
empty, fail with `InvalidRequestError` before any network call." The
vendor network interaction is the oracle `net`; the Boolean of the result
records whether it was invoked. -/
def adapterChat (net : List WireMessage → ChatResponse) (msgs : List WireMessage) :
    Except AdapterError ChatResponse × Bool :=
  if msgs.isEmpty then (Except.error AdapterError.invalidRequest, false)
  else (Except.ok (net msgs), true)

/-! ## C7: the `ProviderStatus` record of the Settings page
(`src/unnamed/part_002`) -/

/-- The `ProviderStatus` interface consumed by the Settings page. -/
structure ProviderStatus where
  provider : String
  configured : Bool
  healthy : Bool
  available_models : List String
  error : Option String
deriving DecidableEq, Repr

/-- The field names of the `ProviderStatus` interface, in declaration
order (`error` is optional). -/
def providerStatusFields : List String :=
  ["provider", "configured", "healthy", "available_models", "error"]

/-- Effects the Settings page fires from its `useEffect` on `isOpen`. -/
inductive SettingsAction
  | loadProviderStatuses
  | loadMCPServers
deriving DecidableEq, Repr

/-- The `useEffect` of `Settings`: on every open, reload provider
statuses and MCP servers; nothing on close. -/
def settingsOpenEffect (isOpen : Bool) : List SettingsAction :=
  if isOpen then [SettingsAction.loadProviderStatuses, SettingsAction.loadMCPServers]
  else []

/-- The Header's refresh button (`onRefresh` in App) refetches the
provider-status endpoint via `loadAvailableModels`. -/
def headerRefreshEffect : List SettingsAction :=
  [SettingsAction.loadProviderStatuses]

/-! ## Theorems -/

/-- C1: in the non-streaming path of `handleSend`, an artifact is generated
iff the response content contains `"Dashboard"` or `"Report"`; with
`"Dashboard"` present it is a dashboard titled "Veeam Backup Dashboard",
otherwise a report titled "Executive Backup Report", and its `content` and
`preview` both equal the response content. -/
theorem C1_artifact_trigger (now : Nat) (content : String) :
    ((detectArtifact now content).isSome ↔
      (containsSub content "Dashboard" = true ∨ containsSub content "Report" = true)) ∧
    (∀ a, detectArtifact now content = some a →
      a.content = content ∧ a.preview = some content ∧
      (containsSub content "Dashboard" = true →
        a.type = ArtifactType.dashboard ∧ a.title = "Veeam Backup Dashboard") ∧
      (containsSub content "Dashboard" = false →
        a.type = ArtifactType.report ∧ a.title = "Executive Backup Report")) := by
  unfold detectArtifact
  rcases hD : containsSub content "Dashboard" <;>
    rcases hR : containsSub content "Report" <;>
      simp [hD, hR]

/-- C1 witness: at the concrete response "Your Veeam Dashboard is ready"
the theorem yields a dashboard artifact with the stated title and fields. -/
theorem C1_artifact_trigger_witness :
    ((detectArtifact 0 "Your Veeam Dashboard is ready").isSome ↔
      (containsSub "Your Veeam Dashboard is ready" "Dashboard" = true ∨
        containsSub "Your Veeam Dashboard is ready" "Report" = true)) ∧
    (∀ a, detectArtifact 0 "Your Veeam Dashboard is ready" = some a →
      a.content = "Your Veeam Dashboard is ready" ∧
      a.preview = some "Your Veeam Dashboard is ready" ∧
      (containsSub "Your Veeam Dashboard is ready" "Dashboard" = true →
        a.type = ArtifactType.dashboard ∧ a.title = "Veeam Backup Dashboard") ∧
      (containsSub "Your Veeam Dashboard is ready" "Dashboard" = false →
        a.type = ArtifactType.report ∧ a.title = "Executive Backup Report")) :=
  C1_artifact_trigger 0 "Your Veeam Dashboard is ready"

/-- C2: the displayed error is the credentials-reconfiguration message
exactly when the extracted message contains, case-insensitively, one of
"api key", "authentication", "unauthorized", "key is required"; otherwise
it is `"Error: <message>"`. -/
theorem C2_error_classification (msg : String) :
    displayedError msg =
      (if isAuthFlavored msg then apiKeyErrorText else "Error: " ++ msg) := by
  unfold displayedError isAuthFlavored authKeywords
  rcases h1 : containsSub (jsToLower msg) "api key" <;>
    rcases h2 : containsSub (jsToLower msg) "authentication" <;>
      rcases h3 : containsSub (jsToLower msg) "unauthorized" <;>
        rcases h4 : containsSub (jsToLower msg) "key is required" <;>
          simp [h1, h2, h3, h4]

/-- C2 witness: applying the theorem at the concrete messages
"Authentication failed" (auth-flavored) and "timeout" (generic). -/
theorem C2_error_classification_witness :
    displayedError "Authentication failed" =
        (if isAuthFlavored "Authentication failed" then apiKeyErrorText
         else "Error: " ++ "Authentication failed") ∧
      displayedError "timeout" =
        (if isAuthFlavored "timeout" then apiKeyErrorText
         else "Error: " ++ "timeout") :=
  ⟨C2_error_classification "Authentication failed", C2_error_classification "timeout"⟩

/-- Positive character length is the same as being a non-empty string. -/
theorem jsLength_pos_iff (a : String) : (0 < jsLength a) ↔ a ≠ "" := by
  rw [jsLength, List.length_pos]
  constructor
  · intro h hc
    apply h
    rw [hc]
  · intro h hd
    apply h
    apply String.ext
    rw [hd]

/-- Keys surviving a `recordSet` either come from the accumulator or are
the inserted key. -/
theorem recordSet_mem (acc : List (String × String)) (k v : String)
    (p : String × String) (hp : p ∈ recordSet acc k v) :
    (∃ q ∈ acc, p.1 = q.1) ∨ p = (k, v) := by
  unfold recordSet at hp
  by_cases h : acc.any (fun q => q.1 == k) = true
  · rw [if_pos h] at hp
    obtain ⟨q, hq, hpq⟩ := List.mem_map.mp hp
    left
    refine ⟨q, hq, ?_⟩
    by_cases hqk : (q.1 == k) = true
    · rw [if_pos hqk] at hpq
      rw [← hpq]
    · rw [if_neg hqk] at hpq
      rw [← hpq]
  · rw [if_neg h] at hp
    rcases List.mem_append.mp hp with hp | hp
    · exact Or.inl ⟨p, hp, rfl⟩
    · right
      simpa using hp

/-- Invariant of the env-building fold: every accumulated key is the
non-empty trim of some input key. -/
theorem buildEnv_aux (rows : List (String × String)) (acc : List (String × String))
    (hacc : ∀ p ∈ acc, ∃ k, p.1 = jsTrim k ∧ jsTrim k ≠ "") :
    ∀ p ∈ rows.foldl
        (fun acc item =>
          if jsTrim item.1 ≠ "" then recordSet acc (jsTrim item.1) (jsTrim item.2) else acc)
        acc,
      ∃ k, p.1 = jsTrim k ∧ jsTrim k ≠ "" := by
  induction rows generalizing acc with
  | nil => exact hacc
  | cons r rs ih =>
    intro p hp
    simp only [List.foldl_cons] at hp
    refine ih _ ?_ p hp
    intro q hq
    by_cases hr : jsTrim r.1 ≠ ""
    · rw [if_pos hr] at hq
      rcases recordSet_mem _ _ _ q hq with ⟨q', hq', hqq'⟩ | hq'
      · obtain ⟨k, hk, hk'⟩ := hacc q' hq'
        exact ⟨k, hqq' ▸ hk, hk'⟩
      · exact ⟨r.1, by rw [hq'], hr⟩
    · rw [if_neg hr] at hq
      exact hacc q hq

/-- Every key in `buildEnv envKeys` is the trim of some key, and that
trimmed key is non-empty. -/
theorem buildEnv_key_shape (envKeys : List (String × String)) :
    ∀ p ∈ buildEnv envKeys, ∃ k, p.1 = jsTrim k ∧ jsTrim k ≠ "" :=
  buildEnv_aux envKeys [] (by intro p hp; cases hp)

/-- C8: `handleNewMessage` retitles the chat only when its title is
exactly "New Chat" and the message is from the user — then to the first
50 characters of the content, with "..." appended exactly when the content
exceeds 50 characters — and appends the message at the end, preserving all
earlier messages in order. -/
theorem C8_new_message (now : Nat) (chat : Chat) (m : Message) :
    ((handleNewMessage now chat m).title ≠ chat.title →
      chat.title = "New Chat" ∧ m.role = Role.user) ∧
    (chat.title = "New Chat" → m.role = Role.user →
      (handleNewMessage now chat m).title =
        jsTake m.content 50 ++ (if 50 < jsLength m.content then "..." else "")) ∧
    (¬(chat.title = "New Chat" ∧ m.role = Role.user) →
      (handleNewMessage now chat m).title = chat.title) ∧
    (handleNewMessage now chat m).messages = chat.messages ++ [m] := by
  unfold handleNewMessage
  by_cases h : chat.title = "New Chat" ∧ m.role = Role.user
  · simp [h]
  · simp [h]
    intro h1 h2
    exact absurd ⟨h1, h2⟩ h

/-- C8 witness: a fresh "New Chat" receiving a long user message is
retitled to the truncated content and the message is appended. -/
theorem C8_new_message_witness :
    (handleNewMessage 9
        { id := "c1", title := "New Chat", createdAt := 0, updatedAt := 0, messages := [] }
        { id := "m1", role := Role.user
        , content := "Show me the Veeam backup status for all protected virtual machines today"
        , timestamp := 9 }).title =
      jsTake "Show me the Veeam backup status for all protected virtual machines today" 50 ++
        (if 50 < jsLength "Show me the Veeam backup status for all protected virtual machines today"
         then "..." else "") ∧
    (handleNewMessage 9
        { id := "c1", title := "New Chat", createdAt := 0, updatedAt := 0, messages := [] }
        { id := "m1", role := Role.user
        , content := "Show me the Veeam backup status for all protected virtual machines today"
        , timestamp := 9 }).messages =
      [] ++ [{ id := "m1", role := Role.user
             , content := "Show me the Veeam backup status for all protected virtual machines today"
             , timestamp := 9 }] :=
  ⟨(C8_new_message 9
      { id := "c1", title := "New Chat", createdAt := 0, updatedAt := 0, messages := [] }
      { id := "m1", role := Role.user
      , content := "Show me the Veeam backup status for all protected virtual machines today"
      , timestamp := 9 }).2.1 rfl rfl,
   (C8_new_message 9
      { id := "c1", title := "New Chat", createdAt := 0, updatedAt := 0, messages := [] }
      { id := "m1", role := Role.user
      , content := "Show me the Veeam backup status for all protected virtual machines today"
      , timestamp := 9 }).2.2.2⟩

/-- C10: deleting a chat removes exactly the chats with the given id,
keeps the rest in relative order, clears the selection and current chat
exactly when the deleted id is the active one, and modifies no other
application state. -/
theorem C10_delete_chat (st : AppState) (chatId : String) :
    (∀ c, c ∈ (handleDeleteChat st chatId).chats ↔ c ∈ st.chats ∧ c.id ≠ chatId) ∧
    List.Sublist (handleDeleteChat st chatId).chats st.chats ∧
    (st.activeChatId = some chatId →
      (handleDeleteChat st chatId).activeChatId = none ∧
      (handleDeleteChat st chatId).currentChat = none) ∧
    (st.activeChatId ≠ some chatId →
      (handleDeleteChat st chatId).activeChatId = st.activeChatId ∧
      (handleDeleteChat st chatId).currentChat = st.currentChat) ∧
    (handleDeleteChat st chatId).selectedProvider = st.selectedProvider ∧
    (handleDeleteChat st chatId).selectedModel = st.selectedModel ∧
    (handleDeleteChat st chatId).availableProviders = st.availableProviders ∧
    (handleDeleteChat st chatId).artifact = st.artifact ∧
    (handleDeleteChat st chatId).darkMode = st.darkMode ∧
    (handleDeleteChat st chatId).showSettings = st.showSettings ∧
    (handleDeleteChat st chatId).availableModels = st.availableModels ∧
    (handleDeleteChat st chatId).activeNav = st.activeNav := by
  unfold handleDeleteChat
  by_cases h : st.activeChatId = some chatId <;>
    simp [h, List.mem_filter, List.filter_sublist, bne_iff_ne]

/-- C10 witness: deleting the active chat "c1" from a two-chat state
clears the selection and keeps the other chat. -/
theorem C10_delete_chat_witness :
    (handleDeleteChat
        { chats := [{ id := "c1", title := "A", createdAt := 0, updatedAt := 0, messages := [] },
                    { id := "c2", title := "B", createdAt := 1, updatedAt := 1, messages := [] }]
        , activeChatId := some "c1"
        , currentChat := some { id := "c1", title := "A", createdAt := 0, updatedAt := 0, messages := [] }
        , selectedProvider := "openai", selectedModel := "gpt-4"
        , availableProviders := ["openai"], artifact := none, darkMode := false
        , showSettings := false, availableModels := [], activeNav := Nav.chats }
        "c1").activeChatId = none ∧
    (handleDeleteChat
        { chats := [{ id := "c1", title := "A", createdAt := 0, updatedAt := 0, messages := [] },
                    { id := "c2", title := "B", createdAt := 1, updatedAt := 1, messages := [] }]
        , activeChatId := some "c1"
        , currentChat := some { id := "c1", title := "A", createdAt := 0, updatedAt := 0, messages := [] }
        , selectedProvider := "openai", selectedModel := "gpt-4"
        , availableProviders := ["openai"], artifact := none, darkMode := false
        , showSettings := false, availableModels := [], activeNav := Nav.chats }
        "c1").currentChat = none :=
  (C10_delete_chat
      { chats := [{ id := "c1", title := "A", createdAt := 0, updatedAt := 0, messages := [] },
                  { id := "c2", title := "B", createdAt := 1, updatedAt := 1, messages := [] }]
      , activeChatId := some "c1"
      , currentChat := some { id := "c1", title := "A", createdAt := 0, updatedAt := 0, messages := [] }
      , selectedProvider := "openai", selectedModel := "gpt-4"
      , availableProviders := ["openai"], artifact := none, darkMode := false
      , showSettings := false, availableModels := [], activeNav := Nav.chats }
      "c1").2.2.1 rfl

/-- C9: the MCP dialog saves only when name and command trim non-empty,
saves them trimmed, saves as args exactly the non-empty trimmed
space-separated tokens, omits `env` exactly when there are no env rows,
and keeps in `env` only entries whose (non-empty) key is the trim of an
input key. -/
theorem C9_mcp_dialog_save (name command args : String)
    (envKeys : List (String × String)) :
    (handleSave name command args envKeys = none ↔
      jsTrim name = "" ∨ jsTrim command = "") ∧
    (∀ cfg, handleSave name command args envKeys = some cfg →
      cfg.name = jsTrim name ∧
      cfg.command = jsTrim command ∧
      cfg.args = ((jsSplit args ' ').map jsTrim).filter (fun a => a != "") ∧
      (∀ a ∈ cfg.args, a ≠ "") ∧
      (cfg.env = none ↔ envKeys = []) ∧
      (∀ l, cfg.env = some l → ∀ p ∈ l, ∃ k, p.1 = jsTrim k ∧ jsTrim k ≠ "")) := by
  have hfilter :
      ((jsSplit args ' ').map jsTrim).filter (fun a => decide (0 < jsLength a)) =
        ((jsSplit args ' ').map jsTrim).filter (fun a => a != "") := by
    apply List.filter_congr
    intro a _
    by_cases ha : a = ""
    · subst ha
      rfl
    · have h1 : 0 < jsLength a := (jsLength_pos_iff a).mpr ha
      have h2 : (a != "") = true := bne_iff_ne.mpr ha
      rw [h2, decide_eq_true h1]
  by_cases h : jsTrim name = "" ∨ jsTrim command = ""
  · constructor
    · unfold handleSave
      rw [if_pos h]
      exact iff_of_true rfl h
    · intro cfg hcfg
      unfold handleSave at hcfg
      rw [if_pos h] at hcfg
      exact Option.noConfusion hcfg
  · constructor
    · unfold handleSave
      rw [if_neg h]
      constructor
      · intro hc
        exact Option.noConfusion hc
      · intro hc
        exact absurd hc h
    · intro cfg hcfg
      unfold handleSave at hcfg
      rw [if_neg h] at hcfg
      obtain rfl := (Option.some.inj hcfg).symm
      refine ⟨rfl, rfl, hfilter, ?_, ?_, ?_⟩
      · intro a ha
        have ha' : a ∈ ((jsSplit args ' ').map jsTrim).filter
            (fun a => decide (0 < jsLength a)) := ha
        rw [hfilter] at ha'
        exact bne_iff_ne.mp (List.mem_filter.mp ha').2
      · cases envKeys with
        | nil => simp
        | cons r rs => simp
      · intro l hl p hp
        cases envKeys with
        | nil => simp at hl
        | cons r rs =>
          simp at hl
          subst hl
          exact buildEnv_key_shape _ p hp

/-- C9 witness: a dialog with padded name/command, a multi-space args
string and one blank-keyed env row saves the trimmed config with no empty
args and only the non-blank env key. -/
theorem C9_mcp_dialog_save_witness :
    (handleSave " veeam " " node " "run  --port 8000" [(" KEY ", " v "), ("  ", "x")] = none ↔
      jsTrim " veeam " = "" ∨ jsTrim " node " = "") ∧
    (∀ cfg, handleSave " veeam " " node " "run  --port 8000" [(" KEY ", " v "), ("  ", "x")] = some cfg →
      cfg.name = jsTrim " veeam " ∧
      cfg.command = jsTrim " node " ∧
      cfg.args = ((jsSplit "run  --port 8000" ' ').map jsTrim).filter (fun a => a != "") ∧
      (∀ a ∈ cfg.args, a ≠ "") ∧
      (cfg.env = none ↔ [(" KEY ", " v "), ("  ", "x")] = ([] : List (String × String))) ∧
      (∀ l, cfg.env = some l → ∀ p ∈ l, ∃ k, p.1 = jsTrim k ∧ jsTrim k ≠ "")) :=
  C9_mcp_dialog_save " veeam " " node " "run  --port 8000" [(" KEY ", " v "), ("  ", "x")]

/-- A closed `EventSource` absorbs a single event. -/
theorem streamStep_closed (st : StreamState) (e : StreamEvent) (h : st.closed = true) :
    streamStep st e = st := by
  unfold streamStep
  rw [if_pos h]

/-- A closed `EventSource` absorbs any event sequence. -/
theorem foldl_streamStep_closed (events : List StreamEvent) (st : StreamState)
    (h : st.closed = true) : events.foldl streamStep st = st := by
  induction events with
  | nil => rfl
  | cons e es ih =>
    rw [List.foldl_cons, streamStep_closed st e h]
    exact ih

/-- Processing a terminal event leaves the stream closed. -/
theorem streamStep_terminal (st : StreamState) (e : StreamEvent)
    (h : e.isTerminal = true) : (streamStep st e).closed = true := by
  unfold streamStep
  by_cases hc : st.closed = true
  · rw [if_pos hc]
    exact hc
  · rw [if_neg hc]
    cases e with
    | message d =>
      cases d with
      | ok p =>
        have hf : p.finished = true := h
        cases hp : p.content with
        | none => simp [hp, hf]
        | some c => by_cases hce : c = "" <;> simp [hp, hf, hce]
      | error u => rfl
    | connError => rfl

/-- C3: the adapter fails an empty message sequence with
`InvalidRequestError` and no network call, and `handleSend` issues no
request for empty or whitespace-only input; any request it does issue has
a non-empty messages list. -/
theorem C3_empty_message_guard (net : List WireMessage → ChatResponse)
    (input : String) (isStreaming : Bool) (messages : List Message)
    (provider model : String) (now : Nat) :
    adapterChat net [] = (Except.error AdapterError.invalidRequest, false) ∧
    (jsTrim input = "" →
      handleSendRequest input isStreaming messages provider model now = none) ∧
    (∀ req, handleSendRequest input isStreaming messages provider model now = some req →
      req.messages ≠ []) := by
  refine ⟨rfl, ?_, ?_⟩
  · intro h
    unfold handleSendRequest
    rw [if_pos (Or.inl h)]
  · intro req hreq
    unfold handleSendRequest at hreq
    by_cases h : jsTrim input = "" ∨ isStreaming = true
    · rw [if_pos h] at hreq
      exact Option.noConfusion hreq
    · rw [if_neg h] at hreq
      obtain rfl := (Option.some.inj hreq).symm
      simp

/-- C3 witness: the adapter rejects `[]` without touching the network, and
whitespace-only input produces no request. -/
theorem C3_empty_message_guard_witness :
    adapterChat
        (fun _ => { content := "Hi there!", model := "gpt-4"
                  , finish_reason := some "stop", usage := none, tool_calls := none })
        [] = (Except.error AdapterError.invalidRequest, false) ∧
    handleSendRequest "   " false [] "openai" "gpt-4" 0 = none :=
  ⟨(C3_empty_message_guard
      (fun _ => { content := "Hi there!", model := "gpt-4"
                , finish_reason := some "stop", usage := none, tool_calls := none })
      "   " false [] "openai" "gpt-4" 0).1,
   (C3_empty_message_guard
      (fun _ => { content := "Hi there!", model := "gpt-4"
                , finish_reason := some "stop", usage := none, tool_calls := none })
      "   " false [] "openai" "gpt-4" 0).2.1 (by decide)⟩

/-- C4: `checkHealth` is total over every request outcome — the `healthy`
field on success, `false` on any failure — and the adapter-level health
check (modelled from the spec) captures the error string behind its
separate accessor. -/
theorem C4_health_check (outcome : Except String HealthResponse)
    (probe : Except String Bool) :
    (∀ r, outcome = Except.ok r → checkHealth outcome = r.healthy) ∧
    (∀ s, outcome = Except.error s → checkHealth outcome = false) ∧
    (∀ s, probe = Except.error s →
      (adapterHealthCheck probe).healthy = false ∧
      (adapterHealthCheck probe).getLastError = some s) := by
  refine ⟨?_, ?_, ?_⟩ <;> intro x hx <;> subst hx <;>
    simp [checkHealth, adapterHealthCheck, AdapterHealth.getLastError]

/-- C4 witness: a simulated network failure yields `false` plus the
captured error, not an exception. -/
theorem C4_health_check_witness :
    checkHealth (Except.error "network unreachable") = false ∧
    (adapterHealthCheck (Except.error "network unreachable")).healthy = false ∧
    (adapterHealthCheck (Except.error "network unreachable")).getLastError =
      some "network unreachable" :=
  ⟨(C4_health_check (Except.error "network unreachable")
      (Except.error "network unreachable")).2.1 "network unreachable" rfl,
   ((C4_health_check (Except.error "network unreachable")
      (Except.error "network unreachable")).2.2 "network unreachable" rfl).1,
   ((C4_health_check (Except.error "network unreachable")
      (Except.error "network unreachable")).2.2 "network unreachable" rfl).2⟩

/-- C5: once a `streamMessage` event carries the finished flag, fails to
parse, or the connection errors, the event source is closed and the
events after it change nothing — in particular no further content deltas
reach `onChunk`. -/
theorem C5_stream_termination (pre post : List StreamEvent) (e : StreamEvent)
    (h : e.isTerminal = true) :
    runStream (pre ++ e :: post) = runStream (pre ++ [e]) ∧
    (runStream (pre ++ [e])).closed = true ∧
    (runStream (pre ++ e :: post)).chunks = (runStream (pre ++ [e])).chunks := by
  have h1 : runStream (pre ++ [e]) = streamStep (runStream pre) e := by
    unfold runStream
    rw [List.foldl_append]
    rfl
  have h2 : (streamStep (runStream pre) e).closed = true :=
    streamStep_terminal _ _ h
  have h3 : runStream (pre ++ e :: post) = streamStep (runStream pre) e := by
    unfold runStream
    rw [List.foldl_append, List.foldl_cons]
    exact foldl_streamStep_closed post _ h2
  exact ⟨h3.trans h1.symm, h1 ▸ h2, by rw [h3, h1]⟩

/-- C5 witness: after a connection error, a later well-formed delta event
is not delivered. -/
theorem C5_stream_termination_witness :
    runStream
        ([StreamEvent.message (Except.ok { content := some "Hello", finished := false })] ++
          StreamEvent.connError ::
            [StreamEvent.message (Except.ok { content := some "late", finished := false })]) =
      runStream
        ([StreamEvent.message (Except.ok { content := some "Hello", finished := false })] ++
          [StreamEvent.connError]) ∧
    (runStream
        ([StreamEvent.message (Except.ok { content := some "Hello", finished := false })] ++
          [StreamEvent.connError])).closed = true ∧
    (runStream
        ([StreamEvent.message (Except.ok { content := some "Hello", finished := false })] ++
          StreamEvent.connError ::
            [StreamEvent.message (Except.ok { content := some "late", finished := false })])).chunks =
      (runStream
        ([StreamEvent.message (Except.ok { content := some "Hello", finished := false })] ++
          [StreamEvent.connError])).chunks :=
  C5_stream_termination
    [StreamEvent.message (Except.ok { content := some "Hello", finished := false })]
    [StreamEvent.message (Except.ok { content := some "late", finished := false })]
    StreamEvent.connError rfl

/-- C6: a request carries exactly the fields
`{provider, messages, model?, stream?}`; a successful call returns the
`ChatResponse` body; a server-responded failure rethrows an error whose
`detail` is the server envelope text with fallback "An error occurred". -/
theorem C6_chat_endpoint_contract (r : ChatRequest) (resp : ChatResponse)
    (d : ServerErrorData) :
    List.Sublist (ChatRequest.wireKeys r) ["provider", "messages", "model", "stream"] ∧
    "provider" ∈ ChatRequest.wireKeys r ∧
    "messages" ∈ ChatRequest.wireKeys r ∧
    sendMessage (AxiosOutcome.success resp) = SendResult.ok resp ∧
    (∃ err, sendMessage (AxiosOutcome.responseError d) = SendResult.thrown err ∧
      err.responseDetail = some (envelopeText d) ∧
      envelopeText d = jsOr d.detail (jsOr d.message "An error occurred")) := by
  refine ⟨?_, ?_, ?_, rfl, ⟨_, rfl, rfl, rfl⟩⟩
  · cases hm : r.model <;> cases hs : r.stream <;>
      simp [ChatRequest.wireKeys, hm, hs]
  · simp [ChatRequest.wireKeys]
  · simp [ChatRequest.wireKeys]

/-- C7 counterexample: the status records the UI consumes have no field
named `provider_id` — the `ProviderStatus` interface names its identifier
field `provider`. -/
theorem C7_no_provider_id_field : ¬ ("provider_id" ∈ providerStatusFields) := by
  decide

/-- C7 (amended): the provider-status record carries fields named
`provider` (the identifier), `configured`, `healthy`, `available_models`
and optional `error`; every settings open reloads the statuses, closing
triggers nothing, and the header refresh refetches them as well. -/
theorem C7_provider_status_shape (isOpen : Bool) :
    "provider" ∈ providerStatusFields ∧
    "configured" ∈ providerStatusFields ∧
    "healthy" ∈ providerStatusFields ∧
    "available_models" ∈ providerStatusFields ∧
    "error" ∈ providerStatusFields ∧
    ¬ ("provider_id" ∈ providerStatusFields) ∧
    (isOpen = true →
      SettingsAction.loadProviderStatuses ∈ settingsOpenEffect isOpen) ∧
    (isOpen = false → settingsOpenEffect isOpen = []) ∧
    SettingsAction.loadProviderStatuses ∈ headerRefreshEffect := by
  refine ⟨by decide, by decide, by decide, by decide, by decide, by decide, ?_, ?_, by decide⟩
  · intro h
    subst h
    decide
  · intro h
    subst h
    decide

/-- C7 witness: with the settings dialog open, the statuses are reloaded. -/
theorem C7_provider_status_shape_witness :
    "provider" ∈ providerStatusFields ∧
    "configured" ∈ providerStatusFields ∧
    "healthy" ∈ providerStatusFields ∧
    "available_models" ∈ providerStatusFields ∧
    "error" ∈ providerStatusFields ∧
    ¬ ("provider_id" ∈ providerStatusFields) ∧
    (true = true →
      SettingsAction.loadProviderStatuses ∈ settingsOpenEffect true) ∧
    (true = false → settingsOpenEffect true = []) ∧
    SettingsAction.loadProviderStatuses ∈ headerRefreshEffect :=
  C7_provider_status_shape true

end VeeamMCP
